import Mathlib

/-!
Shallow embedding of the alarm-dashboard data pipeline in src/app.py:
ingestion (load_all_excels), classification (classify_alarm_type, the
Verified derivation), the shared filter mask of the callbacks, the three
aggregate/detail callbacks, and the Excel exporter.  Machine rows are
modelled as records of optional fields (null becomes Option.none);
timestamps carry a calendar date and a time of day in whole seconds.
-/

/-- Calendar date (year, month, day), the value class of the derived Date
column, produced from the date part of a parsed Alert Time. -/
structure Date where
  year : Nat
  month : Nat
  day : Nat
deriving DecidableEq

/-- Order on dates: lexicographic on (year, month, day), as Python date
objects compare. -/
def Date.leb (a b : Date) : Bool :=
  if a.year < b.year then true
  else if b.year < a.year then false
  else if a.month < b.month then true
  else if b.month < a.month then false
  else decide (a.day ≤ b.day)

/-- A successfully parsed Alert Time value: a calendar date plus the time
of day counted in seconds since midnight (sod). -/
structure Timestamp where
  date : Date
  sod : Nat
deriving DecidableEq

/-- One normalized event row of the concatenated dataset, after the column
rename and the tolerant Alert Time parse of src/app.py lines 32-35.  Every
source column is optional: a pandas null cell becomes none; an Alert Time
value that failed to parse is also none.  Coordinates are kept in their
textual rendering, which is what the map link interpolates. -/
structure Row where
  sect : Option String
  chainage : Option String
  alertTypeSeverity : Option String
  alertTime : Option Timestamp
  alertDuration : Option String
  eventType : Option String
  latitude : Option String
  longitude : Option String
  resolutionRemark1 : Option String
  resolutionRemark2 : Option String
deriving DecidableEq

/-- Derived Date column (src/app.py line 36): the date part of Alert Time,
null when Alert Time is null. -/
def dateOf (t : Option Timestamp) : Option Date :=
  t.map Timestamp.date

/-- Derived Hour column (src/app.py line 37): the hour part of Alert Time,
null when Alert Time is null. -/
def hourOf (t : Option Timestamp) : Option Nat :=
  t.map (fun ts => ts.sod / 3600)

/-- classify_alarm_type (src/app.py lines 39-44): Unknown on a null
timestamp, Day when the time of day is between 06:00:00 and 22:00:00
inclusive, Night otherwise. -/
def classify_alarm_type (t : Option Timestamp) : String :=
  match t with
  | none => "Unknown"
  | some ts => if 6 * 3600 ≤ ts.sod ∧ ts.sod ≤ 22 * 3600 then "Day" else "Night"

/-- Derived Verified column (src/app.py line 47): true when at least one of
the two resolution-remark cells is non-null. -/
def verifiedOf (r : Row) : Bool :=
  r.resolutionRemark1.isSome || r.resolutionRemark2.isSome

/-- The parameters every callback receives from the controls: alarm type,
inclusive date range, and section. -/
structure FilterSpec where
  alarmType : String
  dateStart : Date
  dateEnd : Date
  sect : String
deriving DecidableEq

/-- The filter mask repeated in each callback (src/app.py lines 139-142,
171-174, 204-207, 237-240).  A pandas comparison of a null cell against a
scalar yields False, so rows with a null Date or a null Section never pass
the mask. -/
def matchesFilter (spec : FilterSpec) (r : Row) : Bool :=
  (classify_alarm_type r.alertTime == spec.alarmType)
    && (match dateOf r.alertTime with
        | none => false
        | some d => Date.leb spec.dateStart d)
    && (match dateOf r.alertTime with
        | none => false
        | some d => Date.leb d spec.dateEnd)
    && (match r.sect with
        | none => false
        | some s => s == spec.sect)

/-- update_alarm_count_graph (src/app.py lines 138-161), reduced to the
counts the histogram plots: when the two range endpoints coincide the
filtered rows are bucketed by hour, otherwise by date.  A bucket count is
the number of filtered rows carrying that key; rows with a null key cannot
pass the mask, so none are dropped here. -/
def update_alarm_count_graph (spec : FilterSpec) (events : List Row) :
    (Nat → Nat) ⊕ (Date → Nat) :=
  let filtered := events.filter (matchesFilter spec)
  if spec.dateStart = spec.dateEnd then
    Sum.inl (fun h => filtered.countP (fun r => hourOf r.alertTime == some h))
  else
    Sum.inr (fun d => filtered.countP (fun r => dateOf r.alertTime == some d))

/-- update_verify_graph (src/app.py lines 170-180), reduced to one bucket
of the groupby: for a date key d, the triple (total_alarms, verified,
unverified) computed over the filtered rows whose Date equals d.
total_alarms counts non-null Alert Time cells in the bucket, exactly as
the pandas count aggregation does; verified sums the Verified booleans and
unverified sums their negations. -/
def update_verify_graph (spec : FilterSpec) (events : List Row) (d : Date) :
    Nat × Nat × Nat :=
  let filtered := events.filter (matchesFilter spec)
  let bucket := filtered.filter (fun r => dateOf r.alertTime == some d)
  (bucket.countP (fun r => r.alertTime.isSome),
   bucket.countP verifiedOf,
   bucket.countP (fun r => ! verifiedOf r))

/-- One record of the on-screen unverified table: the six projected source
columns plus the rendered Location cell. -/
structure TableRecord where
  sect : Option String
  chainage : Option String
  alertTypeSeverity : Option String
  alertTime : Option Timestamp
  alertDuration : Option String
  eventType : Option String
  location : String
deriving DecidableEq

/-- The Location cell (src/app.py lines 214-217): a Markdown link whose
target is the Google Maps URL built from the textual coordinates. -/
def locationMarkdown (lat lon : String) : String :=
  "[📍](https://www.google.com/maps?q=" ++ lat ++ "," ++ lon ++ "&t=k)"

/-- Row selection of update_unverified_table (src/app.py lines 204-211):
the filter mask conjoined with not Verified, then dropna on Chainage,
Latitude and Longitude. -/
def update_unverified_table_rows (spec : FilterSpec) (events : List Row) :
    List Row :=
  let filtered := events.filter (fun r => matchesFilter spec r && ! verifiedOf r)
  filtered.filter (fun r =>
    r.chainage.isSome && r.latitude.isSome && r.longitude.isSome)

/-- Projection of a surviving row onto the table columns, adding the
Location cell (src/app.py lines 214-222). -/
def toTableRecord (r : Row) : TableRecord :=
  { sect := r.sect
    chainage := r.chainage
    alertTypeSeverity := r.alertTypeSeverity
    alertTime := r.alertTime
    alertDuration := r.alertDuration
    eventType := r.eventType
    location := locationMarkdown (r.latitude.getD "") (r.longitude.getD "") }

/-- update_unverified_table (src/app.py lines 203-222): the selected rows
projected onto the table records. -/
def update_unverified_table (spec : FilterSpec) (events : List Row) :
    List TableRecord :=
  (update_unverified_table_rows spec events).map toTableRecord

/-- Column order of the unverified table (src/app.py lines 219-222). -/
def unverifiedTableColumns : List String :=
  ["Section", "Chainage", "Alert Type/Severity", "Alert Time",
   "Alert Duration(HH:MM:SS)", "Event Type", "Location"]

/-- One record of the exported sheet: the six shared columns plus the raw
coordinates (src/app.py lines 246-249). -/
structure ExportRecord where
  sect : Option String
  chainage : Option String
  alertTypeSeverity : Option String
  alertTime : Option Timestamp
  alertDuration : Option String
  eventType : Option String
  latitude : Option String
  longitude : Option String
deriving DecidableEq

/-- Projection of a surviving row onto the export columns. -/
def toExportRecord (r : Row) : ExportRecord :=
  { sect := r.sect
    chainage := r.chainage
    alertTypeSeverity := r.alertTypeSeverity
    alertTime := r.alertTime
    alertDuration := r.alertDuration
    eventType := r.eventType
    latitude := r.latitude
    longitude := r.longitude }

/-- Column order of the exported sheet (src/app.py lines 246-249). -/
def downloadColumns : List String :=
  ["Section", "Chainage", "Alert Type/Severity", "Alert Time",
   "Alert Duration(HH:MM:SS)", "Event Type", "Latitude", "Longitude"]

/-- Row selection of download_unverified_excel (src/app.py lines 237-243):
the same mask conjoined with not Verified, then the same dropna. -/
def download_unverified_rows (spec : FilterSpec) (events : List Row) :
    List Row :=
  let filtered := events.filter (fun r => matchesFilter spec r && ! verifiedOf r)
  filtered.filter (fun r =>
    r.chainage.isSome && r.latitude.isSome && r.longitude.isSome)

/-- Zero-pad a number to two digits, as strftime %d and %m do. -/
def pad2 (n : Nat) : String :=
  if n < 10 then "0" ++ toString n else toString n

/-- Zero-pad a year to four digits, as strftime %Y does. -/
def pad4 (n : Nat) : String :=
  if n < 10 then "000" ++ toString n
  else if n < 100 then "00" ++ toString n
  else if n < 1000 then "0" ++ toString n
  else toString n

/-- strftime with the %d-%m-%Y pattern (src/app.py lines 259-260). -/
def formatDMY (d : Date) : String :=
  pad2 d.day ++ "-" ++ pad2 d.month ++ "-" ++ pad4 d.year

/-- Filename built at src/app.py lines 258-261: section with spaces
replaced by underscores, the two range endpoints day-first, the alarm
type, and the xlsx extension. -/
def mkFilename (spec : FilterSpec) : String :=
  spec.sect.replace " " "_" ++ "_" ++ formatDMY spec.dateStart ++ "_to_"
    ++ formatDMY spec.dateEnd ++ "_unverified_" ++ spec.alarmType
    ++ "_alarms" ++ ".xlsx"

/-- The content of the download payload: sheet label, column order, data
rows and derived filename (src/app.py lines 246-263). -/
structure ExportPayload where
  sheetName : String
  columns : List String
  rows : List ExportRecord
  filename : String
deriving DecidableEq

/-- download_unverified_excel (src/app.py lines 233-263).  The callback
first checks which control fired it and returns None unless the trigger
was the download button; otherwise it builds the single-sheet payload. -/
def download_unverified_excel (trigger : String) (spec : FilterSpec)
    (events : List Row) : Option ExportPayload :=
  if trigger ≠ "download-excel-btn" then none
  else some
    { sheetName := "Unverified Alarms"
      columns := downloadColumns
      rows := (download_unverified_rows spec events).map toExportRecord
      filename := mkFilename spec }

/-- One raw spreadsheet row, before any parsing of values: a list of
optional cells. -/
abbrev RawRow := List (Option String)

/-- A file of the data directory, as the ingestor sees it: its base name
and, when it can be parsed as tabular data, its parsed rows. -/
structure XFile where
  name : String
  parsed : Option (List RawRow)
deriving DecidableEq

/-- Model of the glob pattern *.xlsx combined with the lock-file exclusion
of src/app.py lines 16-17: the base name carries the xlsx extension and
does not start with the tilde-dollar marker. -/
def isEligible (f : XFile) : Bool :=
  ".xlsx".data.isSuffixOf f.name.data && ! "~$".data.isPrefixOf f.name.data

/-- A row every cell of which is null, as dropna with how=all drops. -/
def rowAllNull (r : RawRow) : Bool :=
  r.all Option.isNone

/-- dropna with how=all (src/app.py line 22): keep the rows that have at
least one non-null cell. -/
def dropAllNull (df : List RawRow) : List RawRow :=
  df.filter (fun r => ! rowAllNull r)

/-- The two ways load_all_excels raises: a file that pandas cannot read as
tabular data, and a concat invoked on an empty list of frames. -/
inductive LoadError where
  | parseError
  | emptyConcat
deriving DecidableEq

/-- The reading loop of src/app.py lines 18-23: parse each eligible file
in order, raising on the first unreadable one, and keep the parsed frames
that are not entirely empty. -/
def readEligible : List XFile → Except LoadError (List (List RawRow))
  | [] => .ok []
  | f :: fs =>
    match f.parsed with
    | none => .error .parseError
    | some df =>
      match readEligible fs with
      | .error e => .error e
      | .ok rest =>
        if (dropAllNull df).isEmpty then .ok rest else .ok (df :: rest)

/-- load_all_excels (src/app.py lines 15-24): filter the directory listing
to eligible files, read them, and concatenate the kept frames; pd.concat
raises when the kept list is empty. -/
def load_all_excels (files : List XFile) : Except LoadError (List RawRow) :=
  let valid := files.filter isEligible
  match readEligible valid with
  | .error e => .error e
  | .ok dfs => if dfs.isEmpty then .error .emptyConcat else .ok dfs.flatten

/-- Concrete filter parameters used by witnesses: Day alarms on section A
over the single day 2024-01-01. -/
def spec0 : FilterSpec :=
  { alarmType := "Day", dateStart := ⟨2024, 1, 1⟩, dateEnd := ⟨2024, 1, 1⟩
    sect := "A" }

/-- Concrete unverified event used by witnesses: section A, 07:00:00 on
2024-01-01, both resolution remarks null, coordinates present. -/
def row0 : Row :=
  { sect := some "A", chainage := some "100"
    alertTypeSeverity := some "High"
    alertTime := some ⟨⟨2024, 1, 1⟩, 7 * 3600⟩
    alertDuration := some "00:01:00", eventType := some "Intrusion"
    latitude := some "10", longitude := some "20"
    resolutionRemark1 := none, resolutionRemark2 := none }

/-- C1: for every event, the alarm type is Unknown exactly when the alert
time is null; it is Day exactly when the alert time is non-null and its
time of day lies in the closed interval from 06:00:00 to 22:00:00; it is
Night exactly when the alert time is non-null and its time of day lies
outside that interval; in particular 06:00:00 and 22:00:00 classify as
Day while 05:59:59 and 22:00:01 classify as Night. -/
theorem classify_alarm_type_spec (t : Option Timestamp) :
    (classify_alarm_type t = "Unknown" ↔ t = none)
    ∧ (classify_alarm_type t = "Day"
        ↔ ∃ ts, t = some ts ∧ 6 * 3600 ≤ ts.sod ∧ ts.sod ≤ 22 * 3600)
    ∧ (classify_alarm_type t = "Night"
        ↔ ∃ ts, t = some ts ∧ ¬(6 * 3600 ≤ ts.sod ∧ ts.sod ≤ 22 * 3600))
    ∧ (∀ d, classify_alarm_type (some ⟨d, 6 * 3600⟩) = "Day"
        ∧ classify_alarm_type (some ⟨d, 22 * 3600⟩) = "Day"
        ∧ classify_alarm_type (some ⟨d, 6 * 3600 - 1⟩) = "Night"
        ∧ classify_alarm_type (some ⟨d, 22 * 3600 + 1⟩) = "Night") := by
  have hboundary : ∀ d : Date,
      classify_alarm_type (some ⟨d, 6 * 3600⟩) = "Day"
      ∧ classify_alarm_type (some ⟨d, 22 * 3600⟩) = "Day"
      ∧ classify_alarm_type (some ⟨d, 6 * 3600 - 1⟩) = "Night"
      ∧ classify_alarm_type (some ⟨d, 22 * 3600 + 1⟩) = "Night" := by
    intro d
    refine ⟨?_, ?_, ?_, ?_⟩ <;> norm_num [classify_alarm_type]
  rcases t with _ | ts
  · refine ⟨by simp [classify_alarm_type], ?_, ?_, hboundary⟩
    · constructor
      · intro h; exact absurd h (by decide)
      · rintro ⟨ts, h, -⟩; cases h
    · constructor
      · intro h; exact absurd h (by decide)
      · rintro ⟨ts, h, -⟩; cases h
  · by_cases hc : 6 * 3600 ≤ ts.sod ∧ ts.sod ≤ 22 * 3600
    · refine ⟨?_, ?_, ?_, hboundary⟩
      · simp only [classify_alarm_type, if_pos hc]
        constructor
        · intro h; exact absurd h (by decide)
        · rintro h; cases h
      · simp only [classify_alarm_type, if_pos hc]
        exact ⟨fun _ => ⟨ts, rfl, hc⟩, fun _ => trivial⟩
      · simp only [classify_alarm_type, if_pos hc]
        constructor
        · intro h; exact absurd h (by decide)
        · rintro ⟨ts2, h2, hn⟩
          cases h2
          exact absurd hc hn
    · refine ⟨?_, ?_, ?_, hboundary⟩
      · simp only [classify_alarm_type, if_neg hc]
        constructor
        · intro h; exact absurd h (by decide)
        · rintro h; cases h
      · simp only [classify_alarm_type, if_neg hc]
        constructor
        · intro h; exact absurd h (by decide)
        · rintro ⟨ts2, h2, hd⟩
          cases h2
          exact absurd hd hc
      · simp only [classify_alarm_type, if_neg hc]
        exact ⟨fun _ => ⟨ts, rfl, hc⟩, fun _ => trivial⟩

/-- Application of classify_alarm_type_spec at concrete timestamps. -/
theorem classify_alarm_type_spec_witness :
    classify_alarm_type none = "Unknown"
    ∧ classify_alarm_type (some ⟨⟨2024, 1, 1⟩, 22 * 3600 + 1⟩) = "Night" :=
  ⟨(classify_alarm_type_spec none).1.mpr rfl,
   ((classify_alarm_type_spec (some ⟨⟨2024, 1, 1⟩, 22 * 3600 + 1⟩)).2.2.1).mpr
     ⟨_, rfl, by norm_num⟩⟩

/-- C2: for every event, the Verified flag is true exactly when at least
one of the two resolution-remark cells is non-null; the derivation is a
total boolean function of the row. -/
theorem verified_spec (r : Row) :
    verifiedOf r = true
      ↔ (r.resolutionRemark1 ≠ none ∨ r.resolutionRemark2 ≠ none) := by
  simp [verifiedOf, Option.isSome_iff_ne_none]

/-- Application of verified_spec at a concrete event. -/
theorem verified_spec_witness :
    verifiedOf { row0 with resolutionRemark1 := some "done" } = true :=
  (verified_spec _).mpr (Or.inl (by simp))

/-- C5: for every filter specification and every event, the event passes
the mask exactly when its alarm type equals the requested one, its date is
non-null and lies in the closed requested range, and its section equals
the requested one; an event with a null date never passes and the mask is
a total boolean function, so filtering never raises. -/
theorem matchesFilter_spec (spec : FilterSpec) (r : Row) :
    (matchesFilter spec r = true ↔
      (classify_alarm_type r.alertTime = spec.alarmType
        ∧ (∃ d, dateOf r.alertTime = some d
            ∧ Date.leb spec.dateStart d = true ∧ Date.leb d spec.dateEnd = true)
        ∧ r.sect = some spec.sect))
    ∧ (dateOf r.alertTime = none → matchesFilter spec r = false) := by
  obtain ⟨s, ch, av, t, ad, et, la, lo, r1, r2⟩ := r
  constructor
  · cases t <;> cases s <;>
      simp [matchesFilter, dateOf, Bool.and_eq_true, beq_iff_eq, and_assoc]
  · intro h
    cases t
    · simp [matchesFilter, dateOf]
    · simp [dateOf] at h

/-- Application of matchesFilter_spec at a concrete event. -/
theorem matchesFilter_spec_witness : matchesFilter spec0 row0 = true :=
  (matchesFilter_spec spec0 row0).1.mpr
    ⟨by decide, ⟨⟨2024, 1, 1⟩, by decide, by decide, by decide⟩, by decide⟩

/-- C8: for every trigger, the exporter returns no payload unless the
trigger is the download button, and it returns a payload only when the
trigger is the download button. -/
theorem download_requires_button (trigger : String) (spec : FilterSpec)
    (events : List Row) :
    (trigger ≠ "download-excel-btn"
      → download_unverified_excel trigger spec events = none)
    ∧ ((download_unverified_excel trigger spec events).isSome
      → trigger = "download-excel-btn") := by
  constructor
  · intro h
    simp [download_unverified_excel, h]
  · intro h
    by_contra hne
    simp [download_unverified_excel, hne] at h

/-- Application of download_requires_button with a filter-change trigger. -/
theorem download_requires_button_witness :
    download_unverified_excel "alarm-type" spec0 [] = none :=
  (download_requires_button "alarm-type" spec0 []).1 (by decide)

/-- Counting a predicate and its negation over a list covers the list. -/
theorem countP_not_add {α : Type} (p : α → Bool) (l : List α) :
    l.countP p + l.countP (fun a => ! p a) = l.length := by
  induction l with
  | nil => rfl
  | cons x xs ih =>
    cases h : p x <;> simp [List.countP_cons, h, ← ih] <;> omega

/-- Every row of a date bucket of the verification aggregate carries a
non-null Alert Time, because its Date key is non-null. -/
theorem bucket_alertTime_isSome (spec : FilterSpec) (events : List Row)
    (d : Date) :
    ∀ r ∈ (events.filter (matchesFilter spec)).filter
      (fun r => dateOf r.alertTime == some d), r.alertTime.isSome = true := by
  intro r hr
  have h2 := (List.mem_filter.mp hr).2
  cases ht : r.alertTime with
  | none => rw [ht] at h2; simp [dateOf] at h2
  | some ts => rfl

/-- C3: in every date bucket of the verification aggregate over a filtered
set, total equals the number of rows of the bucket, verified counts the
rows with Verified true, unverified counts the rows with Verified false,
and verified plus unverified equals total. -/
theorem verify_graph_bucket_counts (spec : FilterSpec) (events : List Row)
    (d : Date) :
    (update_verify_graph spec events d).1
      = ((events.filter (matchesFilter spec)).filter
          (fun r => dateOf r.alertTime == some d)).length
    ∧ (update_verify_graph spec events d).2.1
      = ((events.filter (matchesFilter spec)).filter
          (fun r => dateOf r.alertTime == some d)).countP verifiedOf
    ∧ (update_verify_graph spec events d).2.2
      = ((events.filter (matchesFilter spec)).filter
          (fun r => dateOf r.alertTime == some d)).countP
            (fun r => ! verifiedOf r)
    ∧ (update_verify_graph spec events d).2.1
        + (update_verify_graph spec events d).2.2
      = (update_verify_graph spec events d).1 := by
  have hlen : ((events.filter (matchesFilter spec)).filter
      (fun r => dateOf r.alertTime == some d)).countP
        (fun r => r.alertTime.isSome)
      = ((events.filter (matchesFilter spec)).filter
        (fun r => dateOf r.alertTime == some d)).length :=
    List.countP_eq_length.mpr (bucket_alertTime_isSome spec events d)
  refine ⟨hlen, rfl, rfl, ?_⟩
  show ((events.filter (matchesFilter spec)).filter
      (fun r => dateOf r.alertTime == some d)).countP verifiedOf
    + ((events.filter (matchesFilter spec)).filter
      (fun r => dateOf r.alertTime == some d)).countP (fun r => ! verifiedOf r)
    = ((events.filter (matchesFilter spec)).filter
      (fun r => dateOf r.alertTime == some d)).countP
        (fun r => r.alertTime.isSome)
  rw [countP_not_add, hlen]

/-- Concrete filter parameters for the single-day Night scenario. -/
def specN : FilterSpec :=
  { alarmType := "Night", dateStart := ⟨2024, 1, 2⟩, dateEnd := ⟨2024, 1, 2⟩
    sect := "A" }

/-- Concrete event at 05:00:00 on 2024-01-02, hour 5, Night. -/
def rowN5 : Row :=
  { row0 with alertTime := some ⟨⟨2024, 1, 2⟩, 5 * 3600⟩ }

/-- A second concrete event at hour 5 on the same day. -/
def rowN5b : Row :=
  { rowN5 with chainage := some "200" }

/-- C9: when the two range endpoints coincide the time-distribution
aggregate buckets the filtered set by hour, the count of a bucket being
the number of filtered rows at that hour; otherwise it buckets by date. -/
theorem update_alarm_count_graph_spec (spec : FilterSpec)
    (events : List Row) :
    (spec.dateStart = spec.dateEnd →
      update_alarm_count_graph spec events = Sum.inl (fun h =>
        (events.filter (matchesFilter spec)).countP
          (fun r => hourOf r.alertTime == some h)))
    ∧ (spec.dateStart ≠ spec.dateEnd →
      update_alarm_count_graph spec events = Sum.inr (fun d =>
        (events.filter (matchesFilter spec)).countP
          (fun r => dateOf r.alertTime == some d))) := by
  constructor
  · intro h
    simp [update_alarm_count_graph, h]
  · intro h
    simp [update_alarm_count_graph, h]

/-- Application of update_alarm_count_graph_spec to a single-day filter
over two events both at hour 5: the aggregate is by hour, the bucket at
hour 5 counts 2, and the other 23 hour buckets count 0. -/
theorem update_alarm_count_graph_spec_witness :
    update_alarm_count_graph specN [rowN5, rowN5b]
      = Sum.inl (fun h => ([rowN5, rowN5b].filter (matchesFilter specN)).countP
          (fun r => hourOf r.alertTime == some h))
    ∧ ([rowN5, rowN5b].filter (matchesFilter specN)).countP
        (fun r => hourOf r.alertTime == some 5) = 2
    ∧ (((List.range 24).filter (fun h => h != 5)).all (fun h =>
        ([rowN5, rowN5b].filter (matchesFilter specN)).countP
          (fun r => hourOf r.alertTime == some h) == 0)) = true :=
  ⟨(update_alarm_count_graph_spec specN [rowN5, rowN5b]).1 rfl,
   by decide, by decide⟩

/-- Refutation of the stated C6 at a concrete input: the Location cell of
the surviving row is not the bare Google Maps URL; it is a Markdown link
wrapping that URL. -/
theorem unverified_table_location_counterexample :
    (update_unverified_table spec0 [row0]).map TableRecord.location
      = ["[📍](https://www.google.com/maps?q=10,20&t=k)"]
    ∧ "[📍](https://www.google.com/maps?q=10,20&t=k)"
      ≠ "https://www.google.com/maps?q=10,20&t=k" := by
  refine ⟨rfl, by decide⟩

/-- C6 as amended: the unverified detail set is exactly the filtered set
restricted to Verified false with non-null chainage, latitude and
longitude, each surviving row augmented with a Location cell that is a
Markdown link wrapping the URL built from the textual coordinates, with
the seven output columns in their fixed order. -/
theorem unverified_table_spec (spec : FilterSpec) (events : List Row) :
    update_unverified_table spec events
      = (((events.filter (matchesFilter spec)).filter
          (fun r => ! verifiedOf r)).filter
          (fun r => r.chainage.isSome && r.latitude.isSome
            && r.longitude.isSome)).map
        (fun r =>
          { sect := r.sect
            chainage := r.chainage
            alertTypeSeverity := r.alertTypeSeverity
            alertTime := r.alertTime
            alertDuration := r.alertDuration
            eventType := r.eventType
            location := "[📍](https://www.google.com/maps?q="
              ++ r.latitude.getD "" ++ "," ++ r.longitude.getD "" ++ "&t=k)" })
    ∧ unverifiedTableColumns
      = ["Section", "Chainage", "Alert Type/Severity", "Alert Time",
         "Alert Duration(HH:MM:SS)", "Event Type", "Location"] := by
  refine ⟨?_, rfl⟩
  have hrows : update_unverified_table_rows spec events
      = ((events.filter (matchesFilter spec)).filter
          (fun r => ! verifiedOf r)).filter
          (fun r => r.chainage.isSome && r.latitude.isSome
            && r.longitude.isSome) := by
    simp only [update_unverified_table_rows, List.filter_filter]
    apply List.filter_congr
    intro a _
    cases hm : matchesFilter spec a <;> cases hv : verifiedOf a <;> rfl
  show (update_unverified_table_rows spec events).map toTableRecord = _
  rw [hrows]
  rfl

/-- C7: triggered by the download button, the exporter yields a payload
with the fixed sheet label, the eight raw columns including latitude and
longitude and no link column, and the derived filename: section with
spaces replaced by underscores, the two range endpoints rendered
day-month-year, the alarm type, and the xlsx extension. -/
theorem export_payload_spec (spec : FilterSpec) (events : List Row) :
    ∃ p, download_unverified_excel "download-excel-btn" spec events = some p
      ∧ p.sheetName = "Unverified Alarms"
      ∧ p.columns = ["Section", "Chainage", "Alert Type/Severity",
          "Alert Time", "Alert Duration(HH:MM:SS)", "Event Type",
          "Latitude", "Longitude"]
      ∧ p.filename = spec.sect.replace " " "_" ++ "_"
          ++ formatDMY spec.dateStart ++ "_to_" ++ formatDMY spec.dateEnd
          ++ "_unverified_" ++ spec.alarmType ++ "_alarms" ++ ".xlsx" := by
  refine ⟨{ sheetName := "Unverified Alarms"
            columns := downloadColumns
            rows := (download_unverified_rows spec events).map toExportRecord
            filename := mkFilename spec }, ?_, rfl, rfl, rfl⟩
  simp only [download_unverified_excel]
  rw [if_neg (fun h => h rfl)]

/-- C10: the exporter serializes exactly the rows of the on-screen
unverified detail set: the two callbacks select the same row list, and
the two results differ only in the projection applied to it, raw
coordinates for the export and the rendered Location cell on screen. -/
theorem export_rows_refine_table (spec : FilterSpec) (events : List Row) :
    download_unverified_rows spec events
        = update_unverified_table_rows spec events
    ∧ update_unverified_table spec events
        = (update_unverified_table_rows spec events).map toTableRecord
    ∧ (∃ p, download_unverified_excel "download-excel-btn" spec events
          = some p
        ∧ p.rows = (update_unverified_table_rows spec events).map
            toExportRecord) := by
  refine ⟨rfl, rfl,
    ⟨{ sheetName := "Unverified Alarms"
       columns := downloadColumns
       rows := (download_unverified_rows spec events).map toExportRecord
       filename := mkFilename spec }, ?_, rfl⟩⟩
  simp only [download_unverified_excel]
  rw [if_neg (fun h => h rfl)]

/-- The reading loop raises exactly when some file of its input cannot be
parsed as tabular data. -/
theorem readEligible_isError_iff (fs : List XFile) :
    (∃ e, readEligible fs = .error e) ↔ ∃ f ∈ fs, f.parsed = none := by
  induction fs with
  | nil => simp [readEligible]
  | cons f fs ih =>
    cases hp : f.parsed with
    | none =>
      simp only [readEligible, hp]
      constructor
      · intro _
        exact ⟨f, List.mem_cons_self f fs, hp⟩
      · intro _
        exact ⟨.parseError, rfl⟩
    | some df =>
      simp only [readEligible, hp]
      cases hr : readEligible fs with
      | error e =>
        constructor
        · intro _
          obtain ⟨g, hg, hgp⟩ := ih.mp ⟨e, hr⟩
          exact ⟨g, List.mem_cons_of_mem f hg, hgp⟩
        · intro _
          exact ⟨e, rfl⟩
      | ok rest =>
        constructor
        · rintro ⟨e2, he2⟩
          by_cases hemp : (dropAllNull df).isEmpty <;> simp [hemp] at he2
        · rintro ⟨g, hg, hgp⟩
          rcases List.mem_cons.mp hg with hgf | hgfs
          · rw [hgf, hp] at hgp
            cases hgp
          · obtain ⟨e, he⟩ := ih.mpr ⟨g, hgfs, hgp⟩
            rw [hr] at he
            cases he

/-- When every file of its input parses, the reading loop succeeds, and
the kept list is empty exactly when every parsed frame is entirely
empty. -/
theorem readEligible_ok_of_all_parsed (fs : List XFile)
    (h : ∀ f ∈ fs, f.parsed ≠ none) :
    ∃ dfs, readEligible fs = .ok dfs
      ∧ (dfs = [] ↔ ∀ f ∈ fs, ∀ df, f.parsed = some df
          → dropAllNull df = []) := by
  induction fs with
  | nil => exact ⟨[], rfl, by simp⟩
  | cons f fs ih =>
    obtain ⟨dfs, hok, hiff⟩ := ih (fun g hg => h g (List.mem_cons_of_mem f hg))
    cases hp : f.parsed with
    | none => exact absurd hp (h f (List.mem_cons_self f fs))
    | some df =>
      by_cases hemp : (dropAllNull df).isEmpty
      · refine ⟨dfs, ?_, ?_⟩
        · simp only [readEligible, hp, hok]
          rw [if_pos hemp]
        · constructor
          · intro hnil g hg df2 hdf2
            rcases List.mem_cons.mp hg with hgf | hgfs
            · rw [hgf, hp] at hdf2
              cases hdf2
              exact List.isEmpty_iff.mp hemp
            · exact hiff.mp hnil g hgfs df2 hdf2
          · intro hall
            apply hiff.mpr
            intro g hg df2 hdf2
            exact hall g (List.mem_cons_of_mem f hg) df2 hdf2
      · refine ⟨df :: dfs, ?_, ?_⟩
        · simp only [readEligible, hp, hok]
          rw [if_neg hemp]
        · constructor
          · intro hnil
            cases hnil
          · intro hall
            exfalso
            have h2 := hall f (List.mem_cons_self f fs) df hp
            rw [h2] at hemp
            exact hemp rfl

/-- Refutation of the stated C4 at a concrete input: a directory holding
one eligible, parseable file whose single row is entirely null has a
non-empty eligible set and no unparseable file, yet ingestion raises,
because the concatenation receives zero frames. -/
theorem load_all_excels_claim_counterexample :
    (([⟨"a.xlsx", some [[none]]⟩] : List XFile).filter isEligible ≠ [])
    ∧ (∀ f ∈ ([⟨"a.xlsx", some [[none]]⟩] : List XFile).filter isEligible,
        f.parsed ≠ none)
    ∧ load_all_excels [⟨"a.xlsx", some [[none]]⟩] = .error .emptyConcat := by
  refine ⟨by decide, by decide, rfl⟩

/-- C4 as amended: an eligible file whose parsed content is entirely empty
is excluded from the concatenation, and ingestion raises exactly when
some eligible file cannot be parsed as tabular data or every eligible
file, of which there may be none, parses to entirely empty content; in
particular a directory with zero eligible files raises, and so does one
whose eligible files are all entirely empty. -/
theorem load_all_excels_error_iff (files : List XFile) :
    (∃ e, load_all_excels files = .error e)
      ↔ ((∃ f ∈ files.filter isEligible, f.parsed = none)
        ∨ (∀ f ∈ files.filter isEligible, ∀ df, f.parsed = some df
            → dropAllNull df = [])) := by
  by_cases hpe : ∃ f ∈ files.filter isEligible, f.parsed = none
  · constructor
    · intro _
      exact Or.inl hpe
    · intro _
      obtain ⟨e, he⟩ := (readEligible_isError_iff _).mpr hpe
      exact ⟨e, by simp [load_all_excels, he]⟩
  · have hall : ∀ f ∈ files.filter isEligible, f.parsed ≠ none := by
      intro g hg hgn
      exact hpe ⟨g, hg, hgn⟩
    obtain ⟨dfs, hok, hiff⟩ := readEligible_ok_of_all_parsed _ hall
    constructor
    · rintro ⟨e, he⟩
      simp only [load_all_excels, hok] at he
      by_cases hnil : dfs.isEmpty
      · exact Or.inr (hiff.mp (List.isEmpty_iff.mp hnil))
      · rw [if_neg hnil] at he
        cases he
    · intro h
      rcases h with h | h
      · exact absurd h hpe
      · have hnil : dfs = [] := hiff.mpr h
        refine ⟨.emptyConcat, ?_⟩
        simp only [load_all_excels, hok, hnil]
        rfl

/-- Application of load_all_excels_error_iff to the empty directory:
ingestion with zero eligible files raises. -/
theorem load_all_excels_error_iff_witness :
    ∃ e, load_all_excels [] = .error e :=
  (load_all_excels_error_iff []).mpr (Or.inr (by simp))
